import Mathlib

set_option maxRecDepth 10000

/-!
Verification of the `EBI` asynchronous job client of `binfpy/webservice.py`.

The Python class `EBI` submits a job to a named EBI tool service, guards
against concurrent submissions with a lock file, polls the remote status
until it leaves `RUNNING`, and fetches named result types.  The embedding
below renders the class as pure functions over an explicit client state
(`EBIState`), with the remote service abstracted as an oracle (`Env`) and
every side effect (HTTP call, sleep, lock-file write/delete) recorded in an
event trace.
-/

namespace Webservice

/-- Values a submission parameter can take: the callers pass strings, and for
the `database` parameter of `ncbiblast` a list of strings. -/
inductive ParamVal where
  | str (s : String)
  | list (l : List String)
deriving Repr, DecidableEq

/-- A parameter dictionary: insertion-ordered association list with unique
keys, mirroring a Python `dict`. -/
abbrev Params := List (String × ParamVal)

/-- Python `d[k]`: the value stored under a key, if any. -/
def lookupParam : Params → String → Option ParamVal
  | [], _ => none
  | kv :: t, k => if kv.1 = k then some kv.2 else lookupParam t k

/-- Python `d[k] = v`: replace the entry in place if the key is present,
otherwise append a new entry. -/
def setParam : Params → String → ParamVal → Params
  | [], k, v => [(k, v)]
  | kv :: t, k, v => if kv.1 = k then (k, v) :: t else kv :: setParam t k v

/-- Python `del d[k]` (total here: deleting an absent key is the identity;
`EBI.run` only deletes a key it has just read). -/
def eraseKey : Params → String → Params
  | [], _ => []
  | kv :: t, k => if kv.1 = k then eraseKey t k else kv :: eraseKey t k

/-- UTF-8 bytes of one unicode code point, as CPython encodes parameter text
before percent-quoting it. -/
def utf8Bytes (c : Nat) : List Nat :=
  if c < 128 then [c]
  else if c < 2048 then [192 + c / 64, 128 + c % 64]
  else if c < 65536 then [224 + c / 4096, 128 + c / 64 % 64, 128 + c % 64]
  else [240 + c / 262144, 128 + c / 4096 % 64, 128 + c / 64 % 64, 128 + c % 64]

/-- UTF-8 byte sequence of a string. -/
def strBytes (s : String) : List Nat :=
  (s.data.map (fun c => utf8Bytes c.toNat)).flatten

/-- Uppercase hexadecimal digit, as `urllib.parse.quote` produces. -/
def hexDigitU (n : Nat) : Char :=
  if n < 10 then Char.ofNat (48 + n) else Char.ofNat (55 + n)

/-- Bytes `urllib.parse.quote_plus` leaves unescaped: ASCII letters, digits
and `_`, `.`, `-`, `~`. -/
def isSafeByte (b : Nat) : Bool :=
  (65 ≤ b && b ≤ 90) || (97 ≤ b && b ≤ 122) || (48 ≤ b && b ≤ 57) ||
    b == 95 || b == 46 || b == 45 || b == 126

/-- Encoding of one byte under `quote_plus`: safe bytes kept, space becomes
`+`, anything else percent-escaped. -/
def quoteByte (b : Nat) : String :=
  if isSafeByte b then String.singleton (Char.ofNat b)
  else if b == 32 then "+"
  else "%" ++ String.singleton (hexDigitU (b / 16)) ++ String.singleton (hexDigitU (b % 16))

/-- Python `urllib.parse.quote_plus`. -/
def quotePlus (s : String) : String :=
  String.join ((strBytes s).map quoteByte)

/-- Python `str()` of a parameter value, which `urlencode` applies to
non-string values before quoting them. -/
def pyStr : ParamVal → String
  | ParamVal.str s => s
  | ParamVal.list l =>
      "[" ++ String.intercalate ", " (l.map (fun x => "'" ++ x ++ "'")) ++ "]"

/-- Python `urllib.parse.urlencode`: `&`-joined `key=value` pairs with both
sides quoted. -/
def urlencode (ps : Params) : String :=
  String.intercalate "&" (ps.map (fun kv => quotePlus kv.1 ++ "=" ++ quotePlus (pyStr kv.2)))

/-- Failure taxonomy of the client.  Each constructor corresponds to one
distinct `raise` site in the Python class (`RuntimeError` with a particular
message, or the `KeyError` raised by the `params["database"]` subscript). -/
inductive EbiError where
  | serviceNotConfigured
  | jobAlreadyRunning (service : String) (jobId : String)
  | jobExecutionFailed (msg : String)
  | jobExecutionUnknownFailure
  | keyError (key : String)
deriving Repr, DecidableEq

/-- Observable side effects of the client, in program order: HTTP requests to
the four endpoints, sleeps, and lock-file writes and removals. -/
inductive Event where
  | runHTTP (url : String) (body : String)
  | statusHTTP (jobId : String)
  | resultHTTP (jobId : String) (resultType : String)
  | sleep (interval : Nat)
  | lockCreate (content : String)
  | lockRemove
deriving Repr, DecidableEq

/-- The remote service, abstracted: the job id its run endpoint replies with,
the status it reports for a given job id at the n-th status query issued by
the client, and the transport outcome of fetching each result type
(`Except.error ()` standing for an `HTTPError`). -/
structure Env where
  runReply : String
  statusAt : String → Nat → String
  fetchRsp : String → Except Unit String

/-- Client state: the bound service, the current job id (unset until first
assigned), the lock-file path, the content of the lock file if the file
exists, and how many status queries were issued so far (the index into
`Env.statusAt`). -/
structure EBIState where
  service : Option String
  jobId : Option String
  lockFile : String
  lockContent : Option String
  polls : Nat
deriving Repr, DecidableEq

namespace EBI

/-- Class attribute `EBI.__email__`. -/
def email : String := "anon@uq.edu.au"

/-- Class attribute `EBI.__ebiServiceUrl__`. -/
def ebiServiceUrl : String := "http://www.ebi.ac.uk/Tools/services/rest/"

/-- Class attribute `EBI.__checkInterval__`. -/
def checkInterval : Nat := 2

/-- Constructor `EBI.__init__`: bind the service and derive the lock-file name
via `"%s.lock" % service` (Python renders `None` as `"None"`).  `lockOnDisk`
is the content of a lock file already present on disk, if any. -/
def mk (service : Option String) (lockOnDisk : Option String) : EBIState :=
  { service := service
    jobId := none
    lockFile := (match service with | some s => s | none => "None") ++ ".lock"
    lockContent := lockOnDisk
    polls := 0 }

/-- `EBI.createLock`: write the current job id to the lock file.  (The source
reads `self.jobId`, which is always set at the single call site.) -/
def createLock (s : EBIState) : EBIState × List Event :=
  let j := s.jobId.getD ""
  ({ s with lockContent := some j }, [Event.lockCreate j])

/-- `EBI.removeLock`: delete the lock file. -/
def removeLock (s : EBIState) : EBIState × List Event :=
  ({ s with lockContent := none }, [Event.lockRemove])

/-- `EBI.status`: query the status endpoint for the given job id, or for the
current one when none is given. -/
def status (env : Env) (s : EBIState) (jobId : Option String) :
    String × EBIState × List Event :=
  let jid := match jobId with | some j => j | none => s.jobId.getD ""
  (env.statusAt jid s.polls, { s with polls := s.polls + 1 }, [Event.statusHTTP jid])

/-- `EBI.isLocked`: no lock file means unlocked; otherwise poll the stored job
id, stay locked (restoring the in-memory job id) while it is `RUNNING`, and
otherwise remove the stale lock and report unlocked. -/
def isLocked (env : Env) (s : EBIState) : Bool × EBIState × List Event :=
  match s.lockContent with
  | none => (false, s, [])
  | some jid =>
    let (st, s1, evs) := status env s (some jid)
    if st = "RUNNING" then (true, { s1 with jobId := some jid }, evs)
    else
      let (s2, evs2) := removeLock s1
      (false, s2, evs ++ evs2)

/-- Python `for db in x`: a list yields its elements, a string its
characters. -/
def pyIter : ParamVal → List String
  | ParamVal.list l => l
  | ParamVal.str s => s.data.map (fun c => String.singleton c)

/-- `EBI.run`: submit a job.  Fails if no service is bound or a job is
already running; for `ncbiblast` the `database` parameter is deleted from the
caller's dictionary and re-serialized as repeated `&database=` pairs appended
to the URL-encoded body.  Returns the job id together with the (mutated)
parameter dictionary, the new state and the emitted events. -/
def run (env : Env) (s : EBIState) (params : Params) :
    Except EbiError String × Params × EBIState × List Event :=
  match s.service with
  | none => (Except.error EbiError.serviceNotConfigured, params, s, [])
  | some service =>
    let (locked, s1, evs1) := isLocked env s
    if locked then
      -- `isLocked` has just restored `self.jobId` when it returns `True`
      (Except.error (EbiError.jobAlreadyRunning service (s1.jobId.getD "")), params, s1, evs1)
    else
      let url := ebiServiceUrl ++ service ++ "/run/"
      let enc : Except EbiError (Params × String) :=
        if service = "ncbiblast" then
          match lookupParam params "database" with
          | none => Except.error (EbiError.keyError "database")
          | some dbv =>
            let params2 := eraseKey params "database"
            let databaseData := (pyIter dbv).foldl (fun acc db => acc ++ "&database=" ++ db) ""
            Except.ok (params2, urlencode params2 ++ databaseData)
        else Except.ok (params, urlencode params)
      match enc with
      | Except.error e => (Except.error e, params, s1, evs1)
      | Except.ok (params2, encodedParams) =>
        let s2 := { s1 with jobId := some env.runReply }
        let (s3, evs3) := createLock s2
        (Except.ok env.runReply, params2, s3,
          evs1 ++ [Event.runHTTP url encodedParams] ++ evs3)

/-- `EBI.result`: fetch one result type.  A fetch of type `"error"` that
succeeds raises its content as a failure, and one that fails at transport
raises the unknown-failure error.  A transport failure fetching any other
type performs the source's recursive call `self.result("error")` — inlined
here, since its argument is the fixed string `"error"` — and propagates the
failure that call raises (it always raises; had it returned normally the
source would have hit an unbound local on its own `return result`). -/
def result (env : Env) (jid : String) (resultType : String) :
    Except EbiError String × List Event :=
  match env.fetchRsp resultType with
  | Except.ok r =>
    if resultType = "error" then
      (Except.error (EbiError.jobExecutionFailed ("An error occurred: " ++ r)),
        [Event.resultHTTP jid resultType])
    else (Except.ok r, [Event.resultHTTP jid resultType])
  | Except.error _ =>
    if resultType = "error" then
      (Except.error EbiError.jobExecutionUnknownFailure, [Event.resultHTTP jid resultType])
    else
      match env.fetchRsp "error" with
      | Except.ok r =>
        (Except.error (EbiError.jobExecutionFailed ("An error occurred: " ++ r)),
          [Event.resultHTTP jid resultType, Event.resultHTTP jid "error"])
      | Except.error _ =>
        (Except.error EbiError.jobExecutionUnknownFailure,
          [Event.resultHTTP jid resultType, Event.resultHTTP jid "error"])

/-- The polling loop of `EBI.submit`: while the last fetched status is
`RUNNING`, fetch it again; each iteration fetches the status and then sleeps
for `checkInterval`.  `fuel` bounds the number of iterations modelled;
`none` means the loop did not finish within that bound (the source loop is
unbounded). -/
def pollLoop (env : Env) (fuel : Nat) (s : EBIState) :
    Option (String × EBIState × List Event) :=
  match fuel with
  | 0 => none
  | fuel + 1 =>
    let (st, s1, evs) := status env s none
    let evs := evs ++ [Event.sleep checkInterval]
    if st = "RUNNING" then
      match pollLoop env fuel s1 with
      | none => none
      | some (fst, s2, evs2) => some (fst, s2, evs ++ evs2)
    else some (st, s1, evs)

/-- The `resultTypes` argument of `EBI.submit`: a single type or a list. -/
inductive RTArg where
  | one (t : String)
  | list (ts : List String)
deriving Repr, DecidableEq

/-- Normalization `if type(resultTypes) != list: resultTypes = [resultTypes]`. -/
def RTArg.toList : RTArg → List String
  | RTArg.one t => [t]
  | RTArg.list ts => ts

/-- Return value of `EBI.submit`: a lone result is returned unwrapped. -/
inductive ResultVal where
  | one (c : String)
  | many (cs : List String)
deriving Repr, DecidableEq

/-- The result-collection loop of `EBI.submit`: fetch each requested type in
order; the first failure propagates and discards earlier results. -/
def fetchAll (env : Env) (jid : String) :
    List String → Except EbiError (List String) × List Event
  | [] => (Except.ok [], [])
  | rt :: rest =>
    let (r, evs) := result env jid rt
    match r with
    | Except.error e => (Except.error e, evs)
    | Except.ok c =>
      match fetchAll env jid rest with
      | (Except.error e, evs2) => (Except.error e, evs ++ evs2)
      | (Except.ok cs, evs2) => (Except.ok (c :: cs), evs ++ evs2)

/-- `EBI.submit`: add the contact email to the caller's parameter dictionary,
run the job, poll until the status leaves `RUNNING`, fail unless it is
`FINISHED`, remove the lock, fetch each requested result type, and unwrap a
singleton result list.  Returns `none` when the polling loop exceeds `fuel`
iterations. -/
def submit (env : Env) (s : EBIState) (fuel : Nat) (params : Params)
    (resultTypes : RTArg) :
    Option (Except EbiError ResultVal × Params × EBIState × List Event) :=
  let params1 := setParam params "email" (ParamVal.str email)
  match run env s params1 with
  | (Except.error e, p2, s1, evs1) => some (Except.error e, p2, s1, evs1)
  | (Except.ok _, p2, s1, evs1) =>
    match pollLoop env fuel s1 with
    | none => none
    | some (finalStatus, s2, evs2) =>
      if finalStatus = "FINISHED" then
        let (s3, evs3) := removeLock s2
        let jid := s3.jobId.getD ""
        let (res, evs4) := fetchAll env jid resultTypes.toList
        match res with
        | Except.error e => some (Except.error e, p2, s3, evs1 ++ evs2 ++ evs3 ++ evs4)
        | Except.ok cs =>
          let rv := match cs with
            | [c] => ResultVal.one c
            | _ => ResultVal.many cs
          some (Except.ok rv, p2, s3, evs1 ++ evs2 ++ evs3 ++ evs4)
      else
        some (Except.error (EbiError.jobExecutionFailed
            "An error occurred and the job could not be completed"),
          p2, s2, evs1 ++ evs2)

/-- Final outcome of the result-collection phase of `EBI.submit`: the first
fetch failure, or the collected contents with a singleton unwrapped (this is
the tail of `submit` after the lock has been removed). -/
def resultOutcome (env : Env) (jid : String) (rts : RTArg) : Except EbiError ResultVal :=
  match (fetchAll env jid rts.toList).1 with
  | Except.error e => Except.error e
  | Except.ok cs => Except.ok (match cs with
      | [c] => ResultVal.one c
      | _ => ResultVal.many cs)

/-- Message of the `JobAlreadyRunning` failure, as formatted in `EBI.run`. -/
def jobAlreadyRunningMsg (service jobId : String) : String :=
  ("You currently have a " ++ service ++ " job running. You must\n" ++
      "                                  wait until it is complete before submitting another job. Go to\n" ++
      "                                  " ++ ebiServiceUrl) ++
    ("status/" ++ (jobId ++ " to check the status of the job."))

/-- The Python exception message attached to each failure. -/
def EbiError.message : EbiError → String
  | EbiError.serviceNotConfigured => "No service specified"
  | EbiError.jobAlreadyRunning sv j => jobAlreadyRunningMsg sv j
  | EbiError.jobExecutionFailed m => m
  | EbiError.jobExecutionUnknownFailure =>
      "An unknown error occurred while processing the job (check your input)"
  | EbiError.keyError k => "KeyError: " ++ k

/-- Remote oracle of the specification's end-to-end scenario: the run endpoint
replies `"job-1"`, the status endpoint yields `RUNNING`, `RUNNING`,
`FINISHED`, and result type `"out"` carries `"ok"`. -/
def demoEnv : Env :=
  { runReply := "job-1"
    statusAt := fun _ n => ["RUNNING", "RUNNING", "FINISHED"].getD n "FINISHED"
    fetchRsp := fun rt => if rt = "out" then Except.ok "ok" else Except.error () }

/-- Parameters of the end-to-end scenario. -/
def demoParams : Params := [("query", ParamVal.str "abc")]

/-- The end-to-end scenario: a fresh client bound to service `"demo"` with no
lock file on disk, submitting `demoParams` for result type `"out"`. -/
def demoRun : Option (Except EbiError ResultVal × Params × EBIState × List Event) :=
  submit demoEnv (EBI.mk (some "demo") none) 10 demoParams (RTArg.one "out")

/-- Event trace of the end-to-end scenario. -/
def demoTrace : List Event :=
  match demoRun with
  | some (_, _, _, tr) => tr
  | none => []

/-- Number of sleeps in a trace. -/
def countSleeps (evs : List Event) : Nat :=
  (evs.filter (fun e => match e with | Event.sleep _ => true | _ => false)).length

/-- Remote oracle whose status endpoint always reports `RUNNING`. -/
def runningEnv : Env :=
  { runReply := "job-R"
    statusAt := fun _ _ => "RUNNING"
    fetchRsp := fun _ => Except.error () }

/-- Remote oracle that reports `ERROR` for every status query. -/
def errorStatusEnv : Env :=
  { runReply := "job-E"
    statusAt := fun _ _ => "ERROR"
    fetchRsp := fun _ => Except.error () }

/-- Remote oracle that finishes immediately and serves every result type. -/
def multiEnv : Env :=
  { runReply := "job-M"
    statusAt := fun _ _ => "FINISHED"
    fetchRsp := fun rt => Except.ok ("res-" ++ rt) }

/-- Remote oracle for the result-protocol witness: fetching `"error"` succeeds
with a diagnostic, fetching anything else fails at transport. -/
def errorEnv : Env :=
  { runReply := ""
    statusAt := fun _ _ => ""
    fetchRsp := fun rt => if rt = "error" then Except.ok "bad query" else Except.error () }

/-- BLAST-style parameters with a list-valued `database` field. -/
def blastParams : Params :=
  [("sequence", ParamVal.str "ACGT"), ("database", ParamVal.list ["pdb", "uniprotkb"])]

/-- State of a fresh `clustalw2` client right after `run` stored job `"job-M"`. -/
def clustalLockedState : EBIState :=
  { EBI.mk (some "clustalw2") none with jobId := some "job-M", lockContent := some "job-M" }

end EBI

/-! Helper lemmas about the parameter-dictionary operations. -/

theorem lookupParam_setParam_self (ps : Params) (k : String) (v : ParamVal) :
    lookupParam (setParam ps k v) k = some v := by
  induction ps with
  | nil => simp [setParam, lookupParam]
  | cons kv t ih =>
    by_cases hk : kv.1 = k
    · simp [setParam, lookupParam, hk]
    · simp [setParam, lookupParam, hk, ih]

theorem lookupParam_setParam_ne (ps : Params) (k k' : String) (v : ParamVal)
    (h : k' ≠ k) : lookupParam (setParam ps k v) k' = lookupParam ps k' := by
  induction ps with
  | nil => simp [setParam, lookupParam, Ne.symm h]
  | cons kv t ih =>
    by_cases hk : kv.1 = k
    · simp [setParam, lookupParam, hk, Ne.symm h]
    · by_cases hkv : kv.1 = k'
      · simp [setParam, lookupParam, hk, hkv, h]
      · simp [setParam, lookupParam, hk, hkv, ih]

theorem lookupParam_eraseKey_self (ps : Params) (k : String) :
    lookupParam (eraseKey ps k) k = none := by
  induction ps with
  | nil => simp [eraseKey, lookupParam]
  | cons kv t ih =>
    by_cases hk : kv.1 = k
    · simp [eraseKey, hk, ih]
    · simp [eraseKey, lookupParam, hk, ih]

theorem lookupParam_eraseKey_ne (ps : Params) (k k' : String) (h : k' ≠ k) :
    lookupParam (eraseKey ps k) k' = lookupParam ps k' := by
  induction ps with
  | nil => simp [eraseKey]
  | cons kv t ih =>
    by_cases hk : kv.1 = k
    · simp [eraseKey, lookupParam, hk, Ne.symm h, ih]
    · by_cases hkv : kv.1 = k'
      · simp [eraseKey, lookupParam, hk, hkv, h]
      · simp [eraseKey, lookupParam, hk, hkv, ih]

/-! Helper lemmas about strings and traces. -/

theorem join_cons (a : String) (t : List String) :
    String.join (a :: t) = a ++ String.join t := by
  simp [String.join_eq, String.ext_iff]

theorem databaseData_eq_join (dbs : List String) (acc : String) :
    dbs.foldl (fun acc db => acc ++ "&database=" ++ db) acc
      = acc ++ String.join (dbs.map (fun db => "&database=" ++ db)) := by
  induction dbs generalizing acc with
  | nil => simp [String.join]
  | cons d t ih =>
    rw [List.foldl_cons, ih, List.map_cons, join_cons]
    simp [String.append_assoc]

/-! Characterization lemmas for the client operations. -/

namespace EBI

theorem isLocked_fields (env : Env) (s : EBIState) :
    ((isLocked env s).2.1).service = s.service
      ∧ ((isLocked env s).2.1).lockFile = s.lockFile
      ∧ ((isLocked env s).2.1).polls ≥ s.polls := by
  unfold isLocked status removeLock
  cases s.lockContent with
  | none => simp
  | some jid => dsimp only; split <;> simp

theorem run_unlocked_plain (env : Env) (s : EBIState) (params : Params) (sv : String)
    (hsv : s.service = some sv) (hnl : s.lockContent = none) (hnb : sv ≠ "ncbiblast") :
    run env s params = (Except.ok env.runReply, params,
      { s with jobId := some env.runReply, lockContent := some env.runReply },
      [Event.runHTTP (ebiServiceUrl ++ sv ++ "/run/") (urlencode params),
        Event.lockCreate env.runReply]) := by
  simp [run, isLocked, hsv, hnl, hnb, createLock]

theorem run_unlocked_ncbiblast (env : Env) (s : EBIState) (params : Params)
    (dbv : ParamVal) (hsv : s.service = some "ncbiblast") (hnl : s.lockContent = none)
    (hdb : lookupParam params "database" = some dbv) :
    run env s params = (Except.ok env.runReply, eraseKey params "database",
      { s with jobId := some env.runReply, lockContent := some env.runReply },
      [Event.runHTTP (ebiServiceUrl ++ "ncbiblast" ++ "/run/")
          (urlencode (eraseKey params "database") ++
            String.join ((pyIter dbv).map (fun db => "&database=" ++ db))),
        Event.lockCreate env.runReply]) := by
  simp [run, isLocked, hsv, hnl, hdb, createLock, databaseData_eq_join]

theorem run_ok_state (env : Env) (s : EBIState) (params : Params)
    {jid : String} {p2 : Params} {s1 : EBIState} {evs : List Event}
    (h : run env s params = (Except.ok jid, p2, s1, evs)) :
    jid = env.runReply ∧ s1.jobId = some jid ∧ s1.lockContent = some jid
      ∧ s1.lockFile = s.lockFile ∧ s1.service = s.service := by
  have hfields := isLocked_fields env s
  unfold run at h
  split at h
  · simp at h
  next sv hsv =>
    rcases hL : isLocked env s with ⟨locked, sA, evsA⟩
    rw [hL] at h hfields
    dsimp only at hfields
    cases locked with
    | true => simp at h
    | false =>
      simp only [Bool.false_eq_true, if_false] at h
      split at h
      · simp at h
      · simp only [createLock, Prod.mk.injEq, Except.ok.injEq] at h
        obtain ⟨h1, h2, h3, h4⟩ := h
        subst h1
        rw [← h3]
        simp [hfields.1, hfields.2.1]

theorem isLocked_events (env : Env) (s : EBIState) :
    ∀ e ∈ (isLocked env s).2.2, (∃ j, e = Event.statusHTTP j) ∨ e = Event.lockRemove := by
  unfold isLocked status removeLock
  cases s.lockContent with
  | none => simp
  | some jid =>
    dsimp only
    split
    · intro e he
      simp at he
      exact Or.inl ⟨jid, he⟩
    · intro e he
      simp at he
      rcases he with he | he
      · exact Or.inl ⟨jid, he⟩
      · exact Or.inr he

theorem run_ok_events (env : Env) (s : EBIState) (params : Params)
    {jid : String} {p2 : Params} {s1 : EBIState} {evs : List Event}
    (h : run env s params = (Except.ok jid, p2, s1, evs)) :
    ∀ j rt, Event.resultHTTP j rt ∉ evs := by
  have hevs := isLocked_events env s
  unfold run at h
  split at h
  · simp at h
  next sv hsv =>
    rcases hL : isLocked env s with ⟨locked, sA, evsA⟩
    rw [hL] at h hevs
    dsimp only at hevs
    cases locked with
    | true => simp at h
    | false =>
      simp only [Bool.false_eq_true, if_false] at h
      split at h
      · simp at h
      · simp only [createLock, Prod.mk.injEq, Except.ok.injEq] at h
        obtain ⟨h1, h2, h3, h4⟩ := h
        rw [← h4]
        intro j rt hmem
        simp only [List.append_assoc, List.mem_append, List.mem_singleton] at hmem
        rcases hmem with hmem | hmem | hmem
        · rcases hevs _ hmem with ⟨j', hj⟩ | hj <;> simp at hj
        · simp at hmem
        · simp at hmem

theorem pollLoop_preserves (env : Env) (fuel : Nat) :
    ∀ s fst s' evs, pollLoop env fuel s = some (fst, s', evs) →
      s'.jobId = s.jobId ∧ s'.lockContent = s.lockContent ∧ s'.service = s.service
        ∧ s'.lockFile = s.lockFile := by
  induction fuel with
  | zero => intro s fst s' evs h; simp [pollLoop] at h
  | succ n ih =>
    intro s fst s' evs h
    unfold pollLoop at h
    dsimp only [status] at h
    split at h
    · split at h
      · simp at h
      next fst2 s2 evs2 hrec =>
        simp only [Option.some.injEq, Prod.mk.injEq] at h
        obtain ⟨h1, h2, h3⟩ := h
        rw [← h2]
        have := ih _ _ _ _ hrec
        simpa using this
    · simp only [Option.some.injEq, Prod.mk.injEq] at h
      obtain ⟨h1, h2, h3⟩ := h
      rw [← h2]
      simp

theorem pollLoop_final_ne_running (env : Env) (fuel : Nat) :
    ∀ s fst s' evs, pollLoop env fuel s = some (fst, s', evs) → fst ≠ "RUNNING" := by
  induction fuel with
  | zero => intro s fst s' evs h; simp [pollLoop] at h
  | succ n ih =>
    intro s fst s' evs h
    unfold pollLoop at h
    dsimp only [status] at h
    split at h
    · split at h
      · simp at h
      next fst2 s2 evs2 hrec =>
        simp only [Option.some.injEq, Prod.mk.injEq] at h
        obtain ⟨h1, h2, h3⟩ := h
        rw [← h1]
        exact ih _ _ _ _ hrec
    next hnr =>
      simp only [Option.some.injEq, Prod.mk.injEq] at h
      obtain ⟨h1, h2, h3⟩ := h
      rw [← h1]
      exact hnr

theorem pollLoop_events (env : Env) (fuel : Nat) :
    ∀ s fst s' evs, pollLoop env fuel s = some (fst, s', evs) →
      ∀ e ∈ evs, (∃ j, e = Event.statusHTTP j) ∨ e = Event.sleep checkInterval := by
  induction fuel with
  | zero => intro s fst s' evs h; simp [pollLoop] at h
  | succ n ih =>
    intro s fst s' evs h
    unfold pollLoop at h
    dsimp only [status] at h
    split at h
    · split at h
      · simp at h
      next fst2 s2 evs2 hrec =>
        simp only [Option.some.injEq, Prod.mk.injEq] at h
        obtain ⟨h1, h2, h3⟩ := h
        rw [← h3]
        intro e he
        simp only [List.append_assoc, List.mem_append, List.mem_singleton, List.mem_cons,
          List.not_mem_nil, or_false] at he
        rcases he with he | he | he
        · exact Or.inl ⟨_, he⟩
        · exact Or.inr he
        · exact ih _ _ _ _ hrec e he
    · simp only [Option.some.injEq, Prod.mk.injEq] at h
      obtain ⟨h1, h2, h3⟩ := h
      rw [← h3]
      intro e he
      simp only [List.mem_append, List.mem_singleton, List.mem_cons, List.not_mem_nil,
        or_false] at he
      rcases he with he | he
      · exact Or.inl ⟨_, he⟩
      · exact Or.inr he

theorem pollLoop_none_of_running (env : Env) :
    ∀ (s : EBIState), (∀ n, env.statusAt (s.jobId.getD "") (s.polls + n) = "RUNNING") →
      ∀ fuel, pollLoop env fuel s = none := by
  intro s h fuel
  induction fuel generalizing s with
  | zero => simp [pollLoop]
  | succ n ih =>
    unfold pollLoop status
    dsimp only
    have h0 := h 0
    rw [Nat.add_zero] at h0
    rw [if_pos h0]
    have hrec : pollLoop env n { s with polls := s.polls + 1 } = none := by
      apply ih
      intro m
      have := h (1 + m)
      simpa [Nat.add_assoc] using this
    rw [hrec]

theorem pollLoop_some_of_exit (env : Env) (n : Nat) :
    ∀ s : EBIState, env.statusAt (s.jobId.getD "") (s.polls + n) ≠ "RUNNING" →
      ∃ out, pollLoop env (n + 1) s = some out := by
  induction n with
  | zero =>
    intro s h
    rw [Nat.add_zero] at h
    exact ⟨_, by unfold pollLoop status; dsimp only; rw [if_neg h]⟩
  | succ m ih =>
    intro s h
    by_cases h0 : env.statusAt (s.jobId.getD "") s.polls = "RUNNING"
    · obtain ⟨out, hout⟩ :=
        ih ({ s with polls := s.polls + 1 } : EBIState)
          (by simpa [Nat.add_assoc, Nat.add_comm 1 m] using h)
      rcases out with ⟨fst2, s2, evs2⟩
      refine ⟨(fst2, s2,
        ([Event.statusHTTP (s.jobId.getD "")] ++ [Event.sleep checkInterval]) ++ evs2), ?_⟩
      unfold pollLoop status
      dsimp only
      rw [if_pos h0, hout]
    · exact ⟨_, by unfold pollLoop status; dsimp only; rw [if_neg h0]⟩

theorem pollLoop_some_imp_exit (env : Env) (fuel : Nat) :
    ∀ (s : EBIState) out, pollLoop env fuel s = some out →
      ∃ n, env.statusAt (s.jobId.getD "") (s.polls + n) ≠ "RUNNING" := by
  induction fuel with
  | zero => intro s out h; simp [pollLoop] at h
  | succ m ih =>
    intro s out h
    unfold pollLoop at h
    dsimp only [status] at h
    by_cases h0 : env.statusAt (s.jobId.getD "") s.polls = "RUNNING"
    · rw [if_pos h0] at h
      cases hrec : pollLoop env m { s with polls := s.polls + 1 } with
      | none => rw [hrec] at h; simp at h
      | some out2 =>
        obtain ⟨n, hn⟩ := ih _ _ hrec
        refine ⟨1 + n, ?_⟩
        simpa [Nat.add_assoc] using hn
    · exact ⟨0, by simpa using h0⟩

theorem result_events (env : Env) (jid rt : String) :
    ∀ e ∈ (result env jid rt).2, ∃ j r, e = Event.resultHTTP j r := by
  unfold result
  cases env.fetchRsp rt with
  | ok r =>
    dsimp only
    split <;> intro e he <;> simp at he <;> exact ⟨jid, rt, he⟩
  | error u =>
    dsimp only
    split
    · intro e he; simp at he; exact ⟨jid, rt, he⟩
    · cases env.fetchRsp "error" with
      | ok r =>
        intro e he
        simp at he
        rcases he with he | he
        · exact ⟨jid, rt, he⟩
        · exact ⟨jid, "error", he⟩
      | error u2 =>
        intro e he
        simp at he
        rcases he with he | he
        · exact ⟨jid, rt, he⟩
        · exact ⟨jid, "error", he⟩

theorem fetchAll_events (env : Env) (jid : String) :
    ∀ ts, ∀ e ∈ (fetchAll env jid ts).2, ∃ j r, e = Event.resultHTTP j r := by
  intro ts
  induction ts with
  | nil => simp [fetchAll]
  | cons t rest ih =>
    unfold fetchAll
    rcases hr : result env jid t with ⟨r1, evs1⟩
    have hev1 := result_events env jid t
    rw [hr] at hev1
    dsimp only
    cases r1 with
    | error e => intro e' he; exact hev1 e' he
    | ok c =>
      rcases hrest : fetchAll env jid rest with ⟨r2, evs2⟩
      rw [hrest] at ih
      cases r2 with
      | error e2 =>
        intro e' he
        simp only [List.mem_append] at he
        rcases he with he | he
        · exact hev1 e' he
        · exact ih e' he
      | ok cs =>
        intro e' he
        simp only [List.mem_append] at he
        rcases he with he | he
        · exact hev1 e' he
        · exact ih e' he

theorem fetchAll_ok_map (env : Env) (jid : String) (f : String → String) :
    ∀ ts, (∀ t ∈ ts, (result env jid t).1 = Except.ok (f t)) →
      (fetchAll env jid ts).1 = Except.ok (ts.map f) := by
  intro ts
  induction ts with
  | nil => intro h; simp [fetchAll]
  | cons t rest ih =>
    intro h
    have ht := h t (by simp)
    unfold fetchAll
    rcases hr : result env jid t with ⟨r1, evs1⟩
    rw [hr] at ht
    dsimp only at ht ⊢
    rw [ht]
    have hrest := ih (fun x hx => h x (by simp [hx]))
    rcases hfa : fetchAll env jid rest with ⟨r2, evs2⟩
    rw [hfa] at hrest
    dsimp only at hrest
    rw [hrest]
    simp

/-! The claims. -/

/-- C1 (counterexample): in the end-to-end scenario (service `"demo"`, job id
`"job-1"`, statuses `RUNNING`, `RUNNING`, `FINISHED`, result `"out" ↦ "ok"`),
the orchestration performs three sleeps, not the two the claim states: the
loop body sleeps after every status fetch, including the final one that
returned `FINISHED`. -/
theorem submit_demo_not_two_sleeps :
    countSleeps demoTrace = 3 ∧ countSleeps demoTrace ≠ 2 := by
  decide

/-- C1 (amended): in the end-to-end scenario, `submit` performs exactly three
sleeps of the fixed poll interval (one after each of the three status checks,
including the final `FINISHED` one), creates the lock record (trace index 1)
and later removes it (trace index 8), and returns the single value `"ok"`
unwrapped. -/
theorem submit_demo_scenario :
    demoRun = some (Except.ok (ResultVal.one "ok"),
      [("query", ParamVal.str "abc"), ("email", ParamVal.str email)],
      { service := some "demo", jobId := some "job-1", lockFile := "demo.lock",
        lockContent := none, polls := 3 },
      [Event.runHTTP (ebiServiceUrl ++ "demo" ++ "/run/")
          (urlencode (setParam demoParams "email" (ParamVal.str email))),
        Event.lockCreate "job-1",
        Event.statusHTTP "job-1", Event.sleep checkInterval,
        Event.statusHTTP "job-1", Event.sleep checkInterval,
        Event.statusHTTP "job-1", Event.sleep checkInterval,
        Event.lockRemove,
        Event.resultHTTP "job-1" "out"])
      ∧ countSleeps demoTrace = 3
      ∧ demoTrace.get? 1 = some (Event.lockCreate "job-1")
      ∧ demoTrace.get? 8 = some Event.lockRemove := by
  exact ⟨rfl, by decide, by decide, by decide⟩

/-- C2: for every result fetch, a transport failure on a type other than
`"error"` makes the client re-enter `result` on the `"error"` type (same
outcome, one extra fetch event) and fail with `JobExecutionFailed` carrying
the diagnostic when that fetch succeeds; a transport failure while already
requesting `"error"` yields `JobExecutionUnknownFailure`; and a successful
fetch of type `"error"` is surfaced as `JobExecutionFailed` with its content
rather than returned. -/
theorem result_error_protocol (env : Env) (jid : String) :
    (∀ rt, rt ≠ "error" → env.fetchRsp rt = Except.error () →
      (result env jid rt).1 = (result env jid "error").1
        ∧ (result env jid rt).2 = Event.resultHTTP jid rt :: (result env jid "error").2
        ∧ ∀ d, env.fetchRsp "error" = Except.ok d →
            (result env jid rt).1
              = Except.error (EbiError.jobExecutionFailed ("An error occurred: " ++ d)))
      ∧ (env.fetchRsp "error" = Except.error () →
          (result env jid "error").1 = Except.error EbiError.jobExecutionUnknownFailure)
      ∧ (∀ d, env.fetchRsp "error" = Except.ok d →
          (result env jid "error").1
            = Except.error (EbiError.jobExecutionFailed ("An error occurred: " ++ d))) := by
  refine ⟨?_, ?_, ?_⟩
  · intro rt hrt hf
    cases he : env.fetchRsp "error" with
    | ok d =>
      refine ⟨?_, ?_, ?_⟩ <;> simp [result, hf, he, hrt]
    | error u =>
      refine ⟨?_, ?_, ?_⟩
      · simp [result, hf, he, hrt]
      · simp [result, hf, he, hrt]
      · intro d hd; exact absurd hd (by simp)
  · intro he; simp [result, he]
  · intro d he; simp [result, he]

/-- Witness for C2: with transport failing on `"html"` and the `"error"`
fetch returning `"bad query"`, the fetch fails carrying that diagnostic. -/
theorem result_error_protocol_witness :
    (result errorEnv "j1" "html").1
      = Except.error (EbiError.jobExecutionFailed ("An error occurred: " ++ "bad query")) :=
  ((result_error_protocol errorEnv "j1").1 "html" (by decide) rfl).2.2 "bad query" rfl

/-- C3: `isLocked` returns `False` when no lock record exists; when one exists
and the remote status of the stored job id is `RUNNING`, it restores the
in-memory job id and returns `True`; and when the remote status is anything
else, it removes the lock record and returns `False`. -/
theorem isLocked_spec (env : Env) (s : EBIState) :
    (s.lockContent = none → isLocked env s = (false, s, []))
      ∧ (∀ jid, s.lockContent = some jid → env.statusAt jid s.polls = "RUNNING" →
          isLocked env s = (true, { s with jobId := some jid, polls := s.polls + 1 },
            [Event.statusHTTP jid]))
      ∧ (∀ jid, s.lockContent = some jid → env.statusAt jid s.polls ≠ "RUNNING" →
          isLocked env s = (false, { s with lockContent := none, polls := s.polls + 1 },
            [Event.statusHTTP jid, Event.lockRemove])) := by
  refine ⟨?_, ?_, ?_⟩
  · intro h; simp [isLocked, h]
  · intro jid h hst; simp [isLocked, status, removeLock, h, hst]
  · intro jid h hst; simp [isLocked, status, removeLock, h, hst]

/-- Witness for C3: a lock record `"j7"` whose job is still `RUNNING` keeps
the service locked and restores the job id. -/
theorem isLocked_spec_witness :
    isLocked runningEnv (EBI.mk (some "clustalw2") (some "j7"))
      = (true, { EBI.mk (some "clustalw2") (some "j7") with jobId := some "j7", polls := 1 },
        [Event.statusHTTP "j7"]) :=
  (isLocked_spec runningEnv (EBI.mk (some "clustalw2") (some "j7"))).2.1 "j7" rfl rfl

/-- C4: calling `run` while the per-service lock is active with a `RUNNING`
remote status fails with `JobAlreadyRunning`, whose payload carries the
running job identifier and whose message contains the `status/{jobId}`
status-check hint, and the only remote request of the call is the status
query — the submission endpoint is never contacted. -/
theorem run_locked_rejects (env : Env) (s : EBIState) (params : Params) (sv jid : String)
    (hsv : s.service = some sv) (hl : s.lockContent = some jid)
    (hst : env.statusAt jid s.polls = "RUNNING") :
    run env s params = (Except.error (EbiError.jobAlreadyRunning sv jid), params,
        { s with jobId := some jid, polls := s.polls + 1 }, [Event.statusHTTP jid])
      ∧ (∀ u b, Event.runHTTP u b ∉ [Event.statusHTTP jid])
      ∧ (∃ pre post, EbiError.message (EbiError.jobAlreadyRunning sv jid)
          = pre ++ ("status/" ++ (jid ++ post))) := by
  refine ⟨?_, ?_, ?_⟩
  · simp [run, isLocked, status, hsv, hl, hst]
  · intro u b; simp
  · exact ⟨"You currently have a " ++ sv ++ " job running. You must\n" ++
      "                                  wait until it is complete before submitting another job. Go to\n" ++
      "                                  " ++ ebiServiceUrl,
      " to check the status of the job.", rfl⟩

/-- Witness for C4: a client locked on `"j7"` with a `RUNNING` remote job
rejects a new submission without contacting the run endpoint. -/
theorem run_locked_rejects_witness :
    run runningEnv (EBI.mk (some "clustalw2") (some "j7")) []
      = (Except.error (EbiError.jobAlreadyRunning "clustalw2" "j7"), [],
        { EBI.mk (some "clustalw2") (some "j7") with jobId := some "j7", polls := 1 },
        [Event.statusHTTP "j7"]) :=
  (run_locked_rejects runningEnv (EBI.mk (some "clustalw2") (some "j7")) []
    "clustalw2" "j7" rfl rfl rfl).1

/-- C5: when the parameters hold a list-valued `database` field, the
`ncbiblast` submission body is the ordinary URL-encoding of the remaining
parameters followed by one `&database=` key/value pair per list element, and
the dictionary passed on (with `database` deleted) no longer binds
`database`. -/
theorem run_database_encoding (env : Env) (s : EBIState) (params : Params)
    (dbs : List String) (hsv : s.service = some "ncbiblast") (hnl : s.lockContent = none)
    (hdb : lookupParam params "database" = some (ParamVal.list dbs)) :
    (run env s params).2.2.2
        = [Event.runHTTP (ebiServiceUrl ++ "ncbiblast" ++ "/run/")
            (urlencode (eraseKey params "database")
              ++ String.join (dbs.map (fun db => "&database=" ++ db))),
          Event.lockCreate env.runReply]
      ∧ (run env s params).2.1 = eraseKey params "database"
      ∧ lookupParam (eraseKey params "database") "database" = none := by
  have h := run_unlocked_ncbiblast env s params (ParamVal.list dbs) hsv hnl hdb
  rw [h]
  exact ⟨rfl, rfl, lookupParam_eraseKey_self params "database"⟩

/-- Witness for C5: two databases produce two `&database=` pairs appended to
the single-encoded remaining parameters. -/
theorem run_database_encoding_witness :
    (run multiEnv (EBI.mk (some "ncbiblast") none) blastParams).2.2.2
      = [Event.runHTTP (ebiServiceUrl ++ "ncbiblast" ++ "/run/")
          (urlencode (eraseKey blastParams "database")
            ++ String.join (["pdb", "uniprotkb"].map (fun db => "&database=" ++ db))),
        Event.lockCreate multiEnv.runReply] :=
  (run_database_encoding multiEnv (EBI.mk (some "ncbiblast") none) blastParams
    ["pdb", "uniprotkb"] rfl rfl rfl).1

/-- C6: after a successful `run`, the identifier returned by the remote
service is stored as the current job id and the persisted lock record
contains exactly that identifier, the lock path being derived from the
service name. -/
theorem run_success_persists_lock (env : Env) (sv : String) (lockOnDisk : Option String)
    (params : Params) {jid : String} {p2 : Params} {s1 : EBIState} {evs : List Event}
    (hrun : run env (EBI.mk (some sv) lockOnDisk) params = (Except.ok jid, p2, s1, evs)) :
    jid = env.runReply ∧ s1.jobId = some jid ∧ s1.lockContent = some jid
      ∧ s1.lockFile = sv ++ ".lock" := by
  have h := run_ok_state env (EBI.mk (some sv) lockOnDisk) params hrun
  exact ⟨h.1, h.2.1, h.2.2.1, h.2.2.2.1.trans rfl⟩

/-- Witness for C6: a fresh `clustalw2` client stores `"job-M"` in memory and
in the `clustalw2.lock` record after submitting. -/
theorem run_success_persists_lock_witness :
    ("job-M" : String) = multiEnv.runReply
      ∧ clustalLockedState.jobId = some "job-M"
      ∧ clustalLockedState.lockContent = some "job-M"
      ∧ clustalLockedState.lockFile = "clustalw2" ++ ".lock" :=
  run_success_persists_lock multiEnv "clustalw2" none [("sequence", ParamVal.str "A")] rfl

/-- C7: when the final polled status is not `FINISHED`, `submit` fails with
the generic `JobExecutionFailed` and the lock record stays in place; when it
is `FINISHED`, the lock is removed unconditionally before any result is
fetched (the removal precedes every result-fetch event in the trace, and the
final lock state is empty no matter how the fetches turn out). -/
theorem submit_lock_discipline (env : Env) (s : EBIState) (fuel : Nat) (params : Params)
    (rts : RTArg) {jid : String} {p2 : Params} {s1 : EBIState} {evs1 : List Event}
    {fst : String} {s2 : EBIState} {evs2 : List Event}
    (hrun : run env s (setParam params "email" (ParamVal.str email))
      = (Except.ok jid, p2, s1, evs1))
    (hpoll : pollLoop env fuel s1 = some (fst, s2, evs2)) :
    (fst ≠ "FINISHED" →
      submit env s fuel params rts
          = some (Except.error (EbiError.jobExecutionFailed
              "An error occurred and the job could not be completed"), p2, s2, evs1 ++ evs2)
        ∧ s2.lockContent = some jid)
      ∧ (fst = "FINISHED" →
          submit env s fuel params rts
              = some (resultOutcome env (s2.jobId.getD "") rts, p2,
                  { s2 with lockContent := none },
                  evs1 ++ evs2 ++ [Event.lockRemove]
                    ++ (fetchAll env (s2.jobId.getD "") rts.toList).2)
            ∧ ({ s2 with lockContent := none } : EBIState).lockContent = none
            ∧ (∀ j rt, Event.resultHTTP j rt ∉ evs1 ++ evs2 ++ [Event.lockRemove])
            ∧ (∀ e ∈ (fetchAll env (s2.jobId.getD "") rts.toList).2,
                ∃ j r, e = Event.resultHTTP j r)) := by
  have hst := run_ok_state env s _ hrun
  have hpres := pollLoop_preserves env fuel s1 fst s2 evs2 hpoll
  have hrevs := run_ok_events env s _ hrun
  have hpevs := pollLoop_events env fuel s1 fst s2 evs2 hpoll
  constructor
  · intro hne
    constructor
    · unfold submit
      dsimp only
      rw [hrun]
      dsimp only
      rw [hpoll]
      dsimp only
      rw [if_neg hne]
    · rw [hpres.2.1]
      exact hst.2.2.1
  · intro hfin
    subst hfin
    refine ⟨?_, rfl, ?_, ?_⟩
    · unfold submit resultOutcome
      dsimp only
      rw [hrun]
      dsimp only
      rw [hpoll]
      dsimp only
      rw [if_pos rfl]
      dsimp only [removeLock]
      rcases hfa : fetchAll env (s2.jobId.getD "") rts.toList with ⟨res, evs4⟩
      cases res <;> rfl
    · intro j rt hmem
      simp only [List.append_assoc, List.mem_append, List.mem_singleton] at hmem
      rcases hmem with hm | hm | hm
      · exact hrevs j rt hm
      · rcases hpevs _ hm with ⟨j', hj⟩ | hj <;> simp at hj
      · simp at hm
    · exact fetchAll_events env _ rts.toList

/-- Witness for C7: a job whose status settles at `ERROR` makes `submit` fail
with the generic `JobExecutionFailed` while the lock record still holds the
job id. -/
theorem submit_lock_discipline_witness :
    submit errorStatusEnv (EBI.mk (some "demo") none) 1 [] (RTArg.one "out")
        = some (Except.error (EbiError.jobExecutionFailed
            "An error occurred and the job could not be completed"),
          [("email", ParamVal.str email)],
          { service := some "demo", jobId := some "job-E", lockFile := "demo.lock",
            lockContent := some "job-E", polls := 1 },
          [Event.runHTTP (ebiServiceUrl ++ "demo" ++ "/run/")
              (urlencode [("email", ParamVal.str email)]),
            Event.lockCreate "job-E", Event.statusHTTP "job-E", Event.sleep checkInterval])
      ∧ ({ service := some "demo", jobId := some "job-E", lockFile := "demo.lock",
            lockContent := some "job-E", polls := 1 } : EBIState).lockContent
          = some "job-E" :=
  (submit_lock_discipline errorStatusEnv (EBI.mk (some "demo") none) 1 [] (RTArg.one "out")
    rfl rfl).1 (by decide)

/-- C8: on a successful `submit` whose fetches all succeed, a request for a
single result type (a lone value or a one-element list) returns that type's
content unwrapped, and a request for several types returns the list of their
contents, of the same length and in the same order as the request. -/
theorem submit_result_shape (env : Env) (s : EBIState) (fuel : Nat) (params : Params)
    (rts : RTArg) (f : String → String)
    {jid : String} {p2 : Params} {s1 : EBIState} {evs1 : List Event}
    {s2 : EBIState} {evs2 : List Event}
    (hrun : run env s (setParam params "email" (ParamVal.str email))
      = (Except.ok jid, p2, s1, evs1))
    (hpoll : pollLoop env fuel s1 = some ("FINISHED", s2, evs2))
    (hok : ∀ t ∈ rts.toList, (result env jid t).1 = Except.ok (f t)) :
    submit env s fuel params rts
        = some (Except.ok (match rts.toList with
            | [t] => ResultVal.one (f t)
            | ts => ResultVal.many (ts.map f)), p2, { s2 with lockContent := none },
          evs1 ++ evs2 ++ [Event.lockRemove] ++ (fetchAll env jid rts.toList).2)
      ∧ ((rts.toList).map f).length = (rts.toList).length
      ∧ (∀ i, ((rts.toList).map f).get? i = ((rts.toList).get? i).map f) := by
  have hst := run_ok_state env s _ hrun
  have hpres := pollLoop_preserves env fuel s1 _ s2 evs2 hpoll
  have hjid : s2.jobId = some jid := by rw [hpres.1, hst.2.1]
  have hfa1 := fetchAll_ok_map env jid f rts.toList hok
  refine ⟨?_, by simp, fun i => by simp [List.get?_eq_getElem?]⟩
  unfold submit
  dsimp only
  rw [hrun]
  dsimp only
  rw [hpoll]
  dsimp only
  rw [if_pos rfl]
  dsimp only [removeLock]
  have hjid' : (({ s2 with lockContent := none } : EBIState)).jobId.getD "" = jid := by
    simp [hjid]
  rw [hjid']
  rcases hfa : fetchAll env jid rts.toList with ⟨res, evs4⟩
  rw [hfa] at hfa1
  dsimp only at hfa1
  subst hfa1
  rcases hts : rts.toList with _ | ⟨t, _ | ⟨t2, rest⟩⟩ <;> rfl

/-- Witness for C8: requesting the two types `"out"` and `"ids"` returns the
two contents in request order. -/
theorem submit_result_shape_witness :
    submit multiEnv (EBI.mk (some "demo") none) 1 [] (RTArg.list ["out", "ids"])
        = some (Except.ok (ResultVal.many ["res-out", "res-ids"]),
          [("email", ParamVal.str email)],
          { service := some "demo", jobId := some "job-M", lockFile := "demo.lock",
            lockContent := none, polls := 1 },
          [Event.runHTTP (ebiServiceUrl ++ "demo" ++ "/run/")
              (urlencode [("email", ParamVal.str email)]),
            Event.lockCreate "job-M", Event.statusHTTP "job-M", Event.sleep checkInterval,
            Event.lockRemove, Event.resultHTTP "job-M" "out",
            Event.resultHTTP "job-M" "ids"]) :=
  (submit_result_shape multiEnv (EBI.mk (some "demo") none) 1 [] (RTArg.list ["out", "ids"])
    (fun t => "res-" ++ t) rfl rfl (by intro t ht; fin_cases ht <;> rfl)).1

/-- C9: the polling loop terminates exactly when the status stream eventually
yields something other than `RUNNING`; a stream that stays `RUNNING` forever
makes the loop run for any amount of fuel without finishing (no timeout or
attempt bound exists), and whenever the loop finishes, the final status is
not `RUNNING` — any other string ends the loop. -/
theorem pollLoop_terminates_iff (env : Env) (s : EBIState) :
    ((∃ fuel out, pollLoop env fuel s = some out)
        ↔ ∃ n, env.statusAt (s.jobId.getD "") (s.polls + n) ≠ "RUNNING")
      ∧ ((∀ n, env.statusAt (s.jobId.getD "") (s.polls + n) = "RUNNING") →
          ∀ fuel, pollLoop env fuel s = none)
      ∧ (∀ fuel fst s' evs, pollLoop env fuel s = some (fst, s', evs) → fst ≠ "RUNNING") := by
  refine ⟨⟨?_, ?_⟩, ?_, ?_⟩
  · rintro ⟨fuel, out, h⟩
    exact pollLoop_some_imp_exit env fuel s out h
  · rintro ⟨n, hn⟩
    obtain ⟨out, hout⟩ := pollLoop_some_of_exit env n s hn
    exact ⟨n + 1, out, hout⟩
  · exact fun h fuel => pollLoop_none_of_running env s h fuel
  · exact fun fuel fst s' evs h => pollLoop_final_ne_running env fuel s fst s' evs h

/-- Witness for C9: against a service that reports `RUNNING` forever, the
loop makes no progress in five iterations of fuel. -/
theorem pollLoop_terminates_iff_witness :
    pollLoop runningEnv 5 (EBI.mk (some "demo") none) = none :=
  (pollLoop_terminates_iff runningEnv (EBI.mk (some "demo") none)).2.1 (fun _ => rfl) 5

/-- C10: `submit` hands the callee the caller's dictionary: on an `ncbiblast`
submission the dictionary that comes back out carries the added `email` key,
no longer binds `database`, and therefore differs from what was passed in. -/
theorem submit_mutates_params (env : Env) (s : EBIState) (fuel : Nat) (params : Params)
    (rts : RTArg) (dbv : ParamVal)
    {res : Except EbiError ResultVal} {p2 : Params} {s' : EBIState} {evs : List Event}
    (hsv : s.service = some "ncbiblast") (hnl : s.lockContent = none)
    (hdb : lookupParam params "database" = some dbv)
    (hsub : submit env s fuel params rts = some (res, p2, s', evs)) :
    p2 = eraseKey (setParam params "email" (ParamVal.str email)) "database"
      ∧ lookupParam p2 "email" = some (ParamVal.str email)
      ∧ lookupParam p2 "database" = none
      ∧ p2 ≠ params := by
  have hdb1 : lookupParam (setParam params "email" (ParamVal.str email)) "database"
      = some dbv := by
    rw [lookupParam_setParam_ne params "email" "database" (ParamVal.str email) (by decide)]
    exact hdb
  have hrun := run_unlocked_ncbiblast env s (setParam params "email" (ParamVal.str email))
    dbv hsv hnl hdb1
  have hp2 : p2 = eraseKey (setParam params "email" (ParamVal.str email)) "database" := by
    unfold submit at hsub
    dsimp only at hsub
    rw [hrun] at hsub
    dsimp only at hsub
    rcases hpl : pollLoop env fuel { s with jobId := some env.runReply, lockContent := some env.runReply } with _ | ⟨fst, s2, evs2⟩
    · rw [hpl] at hsub
      exact absurd hsub (by simp)
    · rw [hpl] at hsub
      dsimp only at hsub
      by_cases hf : fst = "FINISHED"
      · rw [if_pos hf] at hsub
        dsimp only [removeLock] at hsub
        rcases hfa : fetchAll env
            (({ s2 with lockContent := none } : EBIState).jobId.getD "")
            rts.toList with ⟨res4, evs4⟩
        rw [hfa] at hsub
        dsimp only at hsub
        cases res4 with
        | error e =>
          simp only [Option.some.injEq, Prod.mk.injEq] at hsub
          exact hsub.2.1.symm
        | ok cs =>
          simp only [Option.some.injEq, Prod.mk.injEq] at hsub
          exact hsub.2.1.symm
      · rw [if_neg hf] at hsub
        simp only [Option.some.injEq, Prod.mk.injEq] at hsub
        exact hsub.2.1.symm
  refine ⟨hp2, ?_, ?_, ?_⟩
  · rw [hp2, lookupParam_eraseKey_ne _ _ _ (by decide), lookupParam_setParam_self]
  · rw [hp2, lookupParam_eraseKey_self]
  · intro he
    have h1 : lookupParam p2 "database" = none := by
      rw [hp2, lookupParam_eraseKey_self]
    rw [he, hdb] at h1
    exact Option.noConfusion h1

/-- Witness for C10: submitting `blastParams` to `ncbiblast` returns a
dictionary with `email` added and `database` removed. -/
theorem submit_mutates_params_witness :
    ([("sequence", ParamVal.str "ACGT"), ("email", ParamVal.str email)] : Params)
        = eraseKey (setParam blastParams "email" (ParamVal.str email)) "database"
      ∧ lookupParam [("sequence", ParamVal.str "ACGT"), ("email", ParamVal.str email)]
          "email" = some (ParamVal.str email)
      ∧ lookupParam [("sequence", ParamVal.str "ACGT"), ("email", ParamVal.str email)]
          "database" = none
      ∧ ([("sequence", ParamVal.str "ACGT"), ("email", ParamVal.str email)] : Params)
          ≠ blastParams :=
  submit_mutates_params multiEnv (EBI.mk (some "ncbiblast") none) 1 blastParams
    (RTArg.one "out") (ParamVal.list ["pdb", "uniprotkb"]) rfl rfl rfl rfl

end EBI

end Webservice

